import Mathlib

/-!
Verification of the Ai-Noter backend (src/index.js): a gateway exposing
POST /transcribe (multipart audio upload relayed to a speech-to-text API) and
POST /summarize (text relayed to a chat-completion API), with an upload
admission filter, a rate limiter and temporary-file cleanup.

The JavaScript source is shallowly embedded below: each handler becomes a pure
Lean function over explicit inputs (the parsed upload, the request body, and
the outcome of the single external call, passed as a parameter), and the
library middlewares configured in the source (multer, express-rate-limit,
express.json) are modelled where noted.
-/

namespace AiNoter

/-! ### JavaScript string primitives used by the handlers -/

/-- Whitespace for the purposes of `String.prototype.trim` (the characters
the uploaded strings can realistically contain). -/
def isJsWhitespace (c : Char) : Bool :=
  c = ' ' || c = '\t' || c = '\n' || c = '\r'

/-- Embedding of `s.trim()`: strip leading and trailing whitespace. -/
def jsTrim (s : String) : String :=
  String.mk (((s.data.dropWhile isJsWhitespace).reverse.dropWhile isJsWhitespace).reverse)

/-- JavaScript truthiness of a string value: a string is falsy iff it is `""`. -/
def jsTruthy (s : String) : Bool :=
  !(s == "")

/-! ### HTTP responses -/

/-- The JSON bodies the server sends: `\x7btext\x7d`, `\x7bsummary\x7d` and
`\x7berror\x7d` objects. -/
inductive ResponseBody where
  | textResult : String → ResponseBody
  | summaryResult : String → ResponseBody
  | errorResult : String → ResponseBody
deriving DecidableEq, Repr

/-- A response: status code plus JSON body. -/
structure HttpResponse where
  status : Nat
  body : ResponseBody
deriving DecidableEq, Repr

/-! ### Upload admission (multer configuration, src/index.js lines 42-52) -/

/-- `limits.fileSize` from the multer configuration: `25 * 1024 * 1024` bytes. -/
def fileSizeLimit : Nat := 25 * 1024 * 1024

/-- The `allowed` list of the `fileFilter` (line 46). -/
def allowedMimeTypes : List String := ["audio/m4a", "audio/mp3", "audio/wav"]

/-- Embedding of the `fileFilter` callback (lines 45-51): reject with the fixed
error when the declared mimetype is not in `allowed`, accept otherwise. -/
def fileFilter (mimetype : String) : Except String Unit :=
  if allowedMimeTypes.contains mimetype then Except.ok ()
  else Except.error "Formato de audio no permitido"

/-- The admission decision of the configured multer instance: the upload is
admitted iff the `fileFilter` accepts its mimetype and its size does not
exceed `limits.fileSize`. -/
def uploadAdmit (size : Nat) (mimetype : String) : Bool :=
  decide (size ≤ fileSizeLimit) && allowedMimeTypes.contains mimetype

/-- Modelled from the spec: the multer middleware (an external library; only its
configuration is in src/index.js) persists an admitted upload to a uniquely
named temporary file under `uploads/` and never persists a rejected upload.
`some path` means the bytes were persisted. -/
def admitAndPersist (size : Nat) (mimetype : String) (path : String) : Option String :=
  if uploadAdmit size mimetype then some path else none

/-! ### POST /transcribe handler (src/index.js lines 59-98) -/

/-- The `req.file` object produced by `upload.single("audio")`. -/
structure UploadedFile where
  path : String
  originalname : String
  mimetype : String
deriving DecidableEq, Repr

/-- The JSON payload of the upstream transcription response (`response.data`);
`text` is optional, matching the `response.data.text?.` optional chain. -/
structure TranscriptionResponse where
  text : Option String
deriving DecidableEq, Repr

/-- The fixed fallback of line 84: `"Sin texto reconocido"`. -/
def noTextFallback : String := "Sin texto reconocido"

/-- Embedding of line 84: `response.data.text?.trim() || "Sin texto reconocido"`.
If `text` is absent the optional chain is `undefined` (falsy); if the trimmed
text is `""` (falsy) the `||` also selects the fallback. -/
def transcript (data : TranscriptionResponse) : String :=
  match data.text with
  | none => noTextFallback
  | some t => if jsTruthy (jsTrim t) then jsTrim t else noTextFallback

/-- Embedding of the POST /transcribe handler (lines 59-98). Inputs: `req.file`
(absent when no file was sent) and the outcome of the awaited
`axios.post` relay call (`Except.error` embeds a thrown error). Output: the
HTTP response together with the number of `fs.unlink` deletion attempts made
on the temporary file. The success path (lines 84-93) calls `fs.unlink` once;
the catch branch (lines 94-97) does not touch the file. -/
def transcribeHandler (file : Option UploadedFile)
    (upstream : Except String TranscriptionResponse) : HttpResponse × Nat :=
  match file with
  | none => (⟨400, ResponseBody.errorResult "No se envió ningún archivo"⟩, 0)
  | some _ =>
    match upstream with
    | Except.ok data => (⟨200, ResponseBody.textResult (transcript data)⟩, 1)
    | Except.error _ => (⟨500, ResponseBody.errorResult "Error al transcribir el audio"⟩, 0)

/-! ### POST /summarize handler (src/index.js lines 101-130) -/

/-- One chat message of the request body. -/
structure ChatMessage where
  role : String
  content : String
deriving DecidableEq, Repr

/-- The request sent to `groq.chat.completions.create` (lines 109-118). -/
structure ChatRequest where
  model : String
  messages : List ChatMessage
  temperature : ℚ
deriving DecidableEq, Repr

/-- `choices[i].message` of the completion response; `content` is optional,
matching the `?.content?.` optional chain. -/
structure ChatChoiceMessage where
  content : Option String
deriving DecidableEq, Repr

/-- One element of `choices`; `message` is optional, matching `?.message?.`. -/
structure ChatChoice where
  message : Option ChatChoiceMessage
deriving DecidableEq, Repr

/-- The upstream completion response: its `choices` array. -/
structure ChatCompletion where
  choices : List ChatChoice
deriving DecidableEq, Repr

/-- The fixed fallback of line 122: `"No se pudo generar el resumen."`. -/
def summaryFallback : String := "No se pudo generar el resumen."

/-- The fixed instruction wrapper of line 114. -/
def summarizePrompt (text : String) : String :=
  "Resumí este texto en español, en no más de 2 oraciones:\n\n" ++ text

/-- The chat-completion request built on lines 109-117: fixed model
identifier, a single user message wrapping the text, temperature 0.2. -/
def buildChatRequest (text : String) : ChatRequest :=
  { model := "llama-3.1-8b-instant"
  , messages := [{ role := "user", content := summarizePrompt text }]
  , temperature := 2 / 10 }

/-- Embedding of lines 120-122:
`summaryResponse.choices[0]?.message?.content?.trim() || "No se pudo generar el resumen."`. -/
def extractSummary (resp : ChatCompletion) : String :=
  match resp.choices.head? with
  | none => summaryFallback
  | some c =>
    match c.message with
    | none => summaryFallback
    | some m =>
      match m.content with
      | none => summaryFallback
      | some s => if jsTruthy (jsTrim s) then jsTrim s else summaryFallback

/-- Embedding of the POST /summarize handler (lines 101-130). Inputs: the
`text` field of `req.body` (absent when the key is missing) and the upstream
call as a function from the request that would be sent to its outcome. Output:
the HTTP response, and `some req` exactly when the upstream API was called
(with the request it received), `none` when it was not called. -/
def summarizeHandler (text : Option String)
    (upstream : ChatRequest → Except String ChatCompletion) :
    HttpResponse × Option ChatRequest :=
  match text with
  | none => (⟨400, ResponseBody.errorResult "Falta texto"⟩, none)
  | some t =>
    if !jsTruthy t then (⟨400, ResponseBody.errorResult "Falta texto"⟩, none)
    else if t.length > 20000 then
      (⟨400, ResponseBody.errorResult "Texto demasiado largo"⟩, none)
    else
      match upstream (buildChatRequest t) with
      | Except.ok resp =>
        (⟨200, ResponseBody.summaryResult (extractSummary resp)⟩, some (buildChatRequest t))
      | Except.error _ =>
        (⟨500, ResponseBody.errorResult "Error al resumir el texto"⟩, some (buildChatRequest t))

/-! ### Rate limiter (src/index.js lines 21-26) -/

/-- `windowMs` from the limiter configuration: `1 * 60 * 1000` milliseconds. -/
def windowMs : Nat := 1 * 60 * 1000

/-- `max` from the limiter configuration: 15 requests per window. -/
def maxRequests : Nat := 15

/-- The fixed `message` body of the limiter configuration (line 24). -/
def limiterMessage : String := "Demasiadas peticiones, intentá más tarde."

/-- The response sent to a rate-limited request: 429 with the configured
fixed message. -/
def rateLimitResponse : HttpResponse :=
  ⟨429, ResponseBody.errorResult limiterMessage⟩

/-- The per-address window state of the limiter: request count and the time
the current window started. -/
structure RateWindow where
  count : Nat
  windowStart : Nat
deriving DecidableEq, Repr

/-- Modelled from the spec: express-rate-limit is an external library; only its
configuration (`windowMs`, `max`, `message`) is in src/index.js. Per the spec,
the limiter keeps, per client address, a count and a window-start timestamp; on
each request, if the window has expired it resets the count and restarts the
window, then increments the count, and admits the request iff the count stays
within the quota. `none` is the state of an address never seen before. Returns
the updated window and the admission decision. -/
def rateLimitStep (w : Option RateWindow) (now : Nat) : RateWindow × Bool :=
  let reset : RateWindow :=
    match w with
    | none => { count := 0, windowStart := now }
    | some prev =>
      if prev.windowStart + windowMs ≤ now then { count := 0, windowStart := now } else prev
  let bumped : RateWindow := { reset with count := reset.count + 1 }
  (bumped, decide (bumped.count ≤ maxRequests))

/-- Run the limiter over a sequence of request times from one client address;
returns the final window state and the list of admission decisions. -/
def limiterRun (w : Option RateWindow) : List Nat → Option RateWindow × List Bool
  | [] => (w, [])
  | t :: ts =>
    let p := rateLimitStep w t
    let r := limiterRun (some p.1) ts
    (r.1, p.2 :: r.2)

/-! ### JSON body parser (src/index.js line 39) -/

/-- The `limit: "2mb"` of `express.json`, in bytes. -/
def jsonBodyLimit : Nat := 2 * 1024 * 1024

/-- Modelled from the spec: `express.json` is an external library configured at
line 39 with `limit: "2mb"`; it rejects any request body whose byte size
exceeds the limit before the route handler runs. `none` means the parser
rejected the body and the summarize handler never ran; `some` carries the
handler outcome. -/
def summarizePipeline (bodyBytes : Nat) (text : Option String)
    (upstream : ChatRequest → Except String ChatCompletion) :
    Option (HttpResponse × Option ChatRequest) :=
  if jsonBodyLimit < bodyBytes then none
  else some (summarizeHandler text upstream)

/-! ### Helper facts -/

/-- A string of length 20001, the smallest size rejected by the summarize
length check, used as a concrete witness input. -/
def longText : String := String.mk (List.replicate 20001 'a')

theorem longText_length : longText.length = 20001 := by
  show (List.replicate 20001 'a').length = 20001
  exact List.length_replicate 20001 'a'

theorem ne_empty_of_long (t : String) (h : 20000 < t.length) : t ≠ "" := by
  intro he
  rw [he] at h
  exact absurd h (by decide)

/-! ### Claims -/

/-- C1 counterexample: the claim says exactly one deletion attempt occurs
after the relay call finishes regardless of success or failure; but when the
relay call throws, the handler's catch branch (src/index.js lines 94-97)
contains no `fs.unlink`, so zero deletion attempts occur. -/
theorem transcribe_no_cleanup_on_failure :
    (transcribeHandler (some ⟨"uploads/abc123", "a.m4a", "audio/m4a"⟩)
      (Except.error "upstream failure")).2 ≠ 1 := by
  decide

/-- C1 (amended): for every accepted upload, exactly one deletion attempt on
the temporary file occurs when the transcription relay call succeeds; when the
call throws, no deletion attempt occurs (the temporary file is leaked). -/
theorem transcribe_cleanup_iff_success (f : UploadedFile)
    (data : TranscriptionResponse) (e : String) :
    (transcribeHandler (some f) (Except.ok data)).2 = 1 ∧
    (transcribeHandler (some f) (Except.error e)).2 = 0 :=
  ⟨rfl, rfl⟩

/-- C2: the upload admission filter admits a candidate iff its size is at most
25 MiB and its declared content type is one of audio/m4a, audio/mp3,
audio/wav; a rejected upload is never persisted. -/
theorem upload_admission_filter_correct (size : Nat) (mimetype : String) (path : String) :
    (uploadAdmit size mimetype = true ↔
      (size ≤ 25 * 1024 * 1024 ∧ mimetype ∈ ["audio/m4a", "audio/mp3", "audio/wav"])) ∧
    (uploadAdmit size mimetype = false → admitAndPersist size mimetype path = none) ∧
    (fileFilter mimetype = Except.ok () ↔ mimetype ∈ allowedMimeTypes) := by
  refine ⟨?_, ?_, ?_⟩
  · simp [uploadAdmit, fileSizeLimit, allowedMimeTypes]
  · intro h
    simp [admitAndPersist, h]
  · simp [fileFilter]

/-- C2 witness: an upload one byte over the 25 MiB cap is rejected and not
persisted. -/
theorem upload_admission_filter_correct_witness :
    uploadAdmit 26214401 "audio/mp3" = false ∧
    admitAndPersist 26214401 "audio/mp3" "uploads/x" = none :=
  ⟨by decide,
   (upload_admission_filter_correct 26214401 "audio/mp3" "uploads/x").2.1 (by decide)⟩

/-- C4: every POST /summarize request whose text is longer than 20000
characters is answered with status 400 and a JSON error object, and the
upstream summarization API is not called. -/
theorem summarize_rejects_long_text (t : String)
    (u : ChatRequest → Except String ChatCompletion) (h : 20000 < t.length) :
    (summarizeHandler (some t) u).1.status = 400 ∧
    (∃ msg, (summarizeHandler (some t) u).1.body = ResponseBody.errorResult msg) ∧
    (summarizeHandler (some t) u).2 = none := by
  have hne : t ≠ "" := ne_empty_of_long t h
  simp [summarizeHandler, jsTruthy, hne, h]

/-- C4 witness: the 20001-character text is rejected with 400 and no
upstream call. -/
theorem summarize_rejects_long_text_witness :
    20000 < longText.length ∧
    ((summarizeHandler (some longText) (fun _ => Except.error "e")).1.status = 400 ∧
     (∃ msg, (summarizeHandler (some longText) (fun _ => Except.error "e")).1.body
        = ResponseBody.errorResult msg) ∧
     (summarizeHandler (some longText) (fun _ => Except.error "e")).2 = none) :=
  ⟨by rw [longText_length]; decide,
   summarize_rejects_long_text longText (fun _ => Except.error "e")
     (by rw [longText_length]; decide)⟩

/-- C8: a summarize request whose body carries `text = ""` is rejected with
400 and the missing-text error, and the upstream API is not called: the
`if (!text)` presence check treats the empty string (a falsy value) as
missing. -/
theorem summarize_empty_text_rejected (u : ChatRequest → Except String ChatCompletion) :
    (summarizeHandler (some "") u).1 = ⟨400, ResponseBody.errorResult "Falta texto"⟩ ∧
    (summarizeHandler (some "") u).2 = none := by
  constructor <;> rfl

/-- C9: the fixed fallbacks are also returned when the upstream field is
present but trims to the empty string: a whitespace-only transcription text
yields the transcription fallback, and a whitespace-only first-choice message
content yields the summarization fallback. -/
theorem fallback_on_whitespace_only (s : String) (rest : List ChatChoice)
    (h : jsTrim s = "") :
    transcript ⟨some s⟩ = noTextFallback ∧
    extractSummary ⟨⟨some ⟨some s⟩⟩ :: rest⟩ = summaryFallback := by
  constructor <;> simp [transcript, extractSummary, jsTruthy, h]

/-- C9 witness: the two-space string trims to empty and both fallbacks are
produced. -/
theorem fallback_on_whitespace_only_witness :
    jsTrim "  " = "" ∧
    (transcript ⟨some "  "⟩ = noTextFallback ∧
     extractSummary ⟨[⟨some ⟨some "  "⟩⟩]⟩ = summaryFallback) :=
  ⟨by decide, fallback_on_whitespace_only "  " [] (by decide)⟩

/-- C5 counterexample: the claim says the fallback returned when the upstream
`text` field is absent is the string "no text recognized"; the handler in fact
returns the fixed string "Sin texto reconocido", which is a different string. -/
theorem transcribe_fallback_string_mismatch :
    transcript ⟨none⟩ = noTextFallback ∧ noTextFallback ≠ "no text recognized" := by
  constructor
  · rfl
  · decide

/-- C5 (amended): on a successful upstream transcription response whose text
field is present and does not trim to the empty string, POST /transcribe
returns the text field trimmed; if the text field is absent it returns the
fixed fallback string "Sin texto reconocido". -/
theorem transcribe_returns_trimmed_or_fallback (data : TranscriptionResponse) :
    (∀ t, data.text = some t → jsTrim t ≠ "" → transcript data = jsTrim t) ∧
    (data.text = none → transcript data = noTextFallback) := by
  constructor
  · intro t ht hne
    simp [transcript, ht, jsTruthy, hne]
  · intro h
    simp [transcript, h]

/-- C5 witness: a text with surrounding whitespace is returned trimmed, and
an absent text yields the fallback. -/
theorem transcribe_returns_trimmed_or_fallback_witness :
    (jsTrim " hola " ≠ "" ∧ transcript ⟨some " hola "⟩ = jsTrim " hola ") ∧
    transcript ⟨none⟩ = noTextFallback :=
  ⟨⟨by decide, (transcribe_returns_trimmed_or_fallback ⟨some " hola "⟩).1 " hola " rfl (by decide)⟩,
   (transcribe_returns_trimmed_or_fallback ⟨none⟩).2 rfl⟩

/-- C6 counterexample: the claim says the fallback substituted when the first
completion choice's message content is absent is the string "summary could not
be generated"; the handler in fact uses the fixed string
"No se pudo generar el resumen.", which is a different string. -/
theorem summary_fallback_string_mismatch :
    extractSummary ⟨[]⟩ = summaryFallback ∧
    summaryFallback ≠ "summary could not be generated" := by
  constructor
  · rfl
  · decide

/-- C6 (amended): every admitted summarize request is sent as a single-message
chat completion whose one user message wraps the text in the fixed instruction,
with the fixed model identifier and temperature 0.2; on success the response is
200 with the extracted summary, where extraction returns the first choice's
message content trimmed, substituting the fixed fallback
"No se pudo generar el resumen." when it is absent. -/
theorem summarize_relay_contract (t : String) (resp : ChatCompletion)
    (h1 : t ≠ "") (h2 : ¬ 20000 < t.length) :
    (summarizeHandler (some t) (fun _ => Except.ok resp)).1 =
      ⟨200, ResponseBody.summaryResult (extractSummary resp)⟩ ∧
    (summarizeHandler (some t) (fun _ => Except.ok resp)).2 = some (buildChatRequest t) ∧
    buildChatRequest t =
      ⟨"llama-3.1-8b-instant", [⟨"user", summarizePrompt t⟩], 2 / 10⟩ ∧
    (∀ s rest, extractSummary ⟨⟨some ⟨some s⟩⟩ :: rest⟩ =
      (if jsTrim s ≠ "" then jsTrim s else summaryFallback)) ∧
    extractSummary ⟨[]⟩ = summaryFallback := by
  refine ⟨?_, ?_, rfl, ?_, rfl⟩
  · simp [summarizeHandler, jsTruthy, h1, h2]
  · simp [summarizeHandler, jsTruthy, h1, h2]
  · intro s rest
    by_cases hs : jsTrim s = "" <;> simp [extractSummary, jsTruthy, hs]

/-- C6 witness: the concrete text "hola" is admitted and relayed as the fixed
single-message request. -/
theorem summarize_relay_contract_witness :
    ("hola" ≠ "" ∧ ¬ 20000 < String.length "hola") ∧
    (summarizeHandler (some "hola")
      (fun _ => Except.ok ⟨[⟨some ⟨some " listo "⟩⟩]⟩)).2 = some (buildChatRequest "hola") :=
  ⟨⟨by decide, by decide⟩,
   (summarize_relay_contract "hola" ⟨[⟨some ⟨some " listo "⟩⟩]⟩ (by decide) (by decide)).2.1⟩

/-- C10 counterexample: the claim says the 2 MB body limit is stricter than
the 20000-character text check; but a 25000-byte body carrying a
20001-character text passes the body parser (the handler runs) and is then
rejected by the character check, so the body limit does not subsume the
character check. -/
theorem body_limit_not_stricter :
    20000 < longText.length ∧ 25000 ≤ jsonBodyLimit ∧
    summarizePipeline 25000 (some longText) (fun _ => Except.error "e")
      = some (⟨400, ResponseBody.errorResult "Texto demasiado largo"⟩, none) := by
  have h : 20000 < longText.length := by rw [longText_length]; decide
  refine ⟨h, by decide, ?_⟩
  have hne : longText ≠ "" := ne_empty_of_long longText h
  simp [summarizePipeline, jsonBodyLimit, summarizeHandler, jsTruthy, hne, h]

/-- C10 (amended): every JSON request body larger than the configured 2 MB
limit is rejected by the body parser before any handler logic runs, so
POST /summarize never observes such a body; this limit is independent of the
20000-character text check (neither check subsumes the other). -/
theorem json_body_limit_rejects_before_handler (bytes : Nat) (text : Option String)
    (u : ChatRequest → Except String ChatCompletion) (h : jsonBodyLimit < bytes) :
    summarizePipeline bytes text u = none := by
  simp [summarizePipeline, h]

/-- C10 witness: a body one byte over the limit is rejected before the
handler. -/
theorem json_body_limit_rejects_before_handler_witness :
    jsonBodyLimit < 2097153 ∧
    summarizePipeline 2097153 (some "hola") (fun _ => Except.error "e") = none :=
  ⟨by decide,
   json_body_limit_rejects_before_handler 2097153 (some "hola") (fun _ => Except.error "e")
     (by decide)⟩

/-- The five fixed, human-readable error messages the two POST handlers can
send (src/index.js lines 62, 96, 105, 107, 128). -/
def fixedErrorMessages : List String :=
  ["No se envió ningún archivo", "Error al transcribir el audio",
   "Falta texto", "Texto demasiado largo", "Error al resumir el texto"]

/-- C7: every non-success response of the two POST handlers is a JSON error
object whose message is one of the fixed literals (so no stack trace or
upstream detail can leak), with status 400 on the validation branches and 500
on the upstream-failure branches. -/
theorem error_responses_are_fixed_json (file : Option UploadedFile)
    (up : Except String TranscriptionResponse)
    (text : Option String) (u : ChatRequest → Except String ChatCompletion) :
    ((transcribeHandler file up).1.status = 200 ∨
      ∃ msg, (transcribeHandler file up).1.body = ResponseBody.errorResult msg ∧
        msg ∈ fixedErrorMessages ∧
        ((transcribeHandler file up).1.status = 400 ∨
         (transcribeHandler file up).1.status = 500)) ∧
    ((summarizeHandler text u).1.status = 200 ∨
      ∃ msg, (summarizeHandler text u).1.body = ResponseBody.errorResult msg ∧
        msg ∈ fixedErrorMessages ∧
        ((summarizeHandler text u).1.status = 400 ∨
         (summarizeHandler text u).1.status = 500)) ∧
    (transcribeHandler none up).1.status = 400 ∧
    (∀ f e, (transcribeHandler (some f) (Except.error e)).1
        = ⟨500, ResponseBody.errorResult "Error al transcribir el audio"⟩) ∧
    (summarizeHandler none u).1.status = 400 ∧
    (∀ t e, t ≠ "" → ¬ 20000 < t.length →
      (summarizeHandler (some t) (fun _ => Except.error e)).1
        = ⟨500, ResponseBody.errorResult "Error al resumir el texto"⟩) := by
  refine ⟨?_, ?_, rfl, fun f e => rfl, rfl, ?_⟩
  · match file, up with
    | none, _ =>
      exact Or.inr ⟨"No se envió ningún archivo", rfl, by decide, Or.inl rfl⟩
    | some f, Except.ok data => exact Or.inl rfl
    | some f, Except.error e =>
      exact Or.inr ⟨"Error al transcribir el audio", rfl, by decide, Or.inr rfl⟩
  · match text with
    | none => exact Or.inr ⟨"Falta texto", rfl, by decide, Or.inl rfl⟩
    | some t =>
      by_cases h1 : t = ""
      · subst h1
        exact Or.inr ⟨"Falta texto", rfl, by decide, Or.inl rfl⟩
      · by_cases h2 : 20000 < t.length
        · exact Or.inr ⟨"Texto demasiado largo",
            by simp [summarizeHandler, jsTruthy, h1, h2], by decide,
            Or.inl (by simp [summarizeHandler, jsTruthy, h1, h2])⟩
        · cases hu : u (buildChatRequest t) with
          | ok resp =>
            exact Or.inl (by simp [summarizeHandler, jsTruthy, h1, h2, hu])
          | error e =>
            exact Or.inr ⟨"Error al resumir el texto",
              by simp [summarizeHandler, jsTruthy, h1, h2, hu], by decide,
              Or.inr (by simp [summarizeHandler, jsTruthy, h1, h2, hu])⟩
  · intro t e h1 h2
    simp [summarizeHandler, jsTruthy, h1, h2]

/-- C7 witness: a concrete upstream failure on an admitted summarize request
is converted to the fixed 500 JSON error. -/
theorem error_responses_are_fixed_json_witness :
    ("hola" ≠ "" ∧ ¬ 20000 < String.length "hola") ∧
    (summarizeHandler (some "hola") (fun _ => Except.error "boom")).1
      = ⟨500, ResponseBody.errorResult "Error al resumir el texto"⟩ :=
  ⟨⟨by decide, by decide⟩,
   (error_responses_are_fixed_json none (Except.error "x") (some "hola")
      (fun _ => Except.error "boom")).2.2.2.2.2 "hola" "boom" (by decide) (by decide)⟩

/-- Running the limiter over requests that all fall inside the window starting
at `s`, from a state whose window started at `s`: the count grows by the
number of requests, the window start is unchanged, and while the quota is not
exceeded every request is admitted. -/
theorem limiterRun_in_window (s : Nat) :
    ∀ (ts : List Nat), (∀ t ∈ ts, t < s + windowMs) →
    ∀ c, c + ts.length ≤ maxRequests →
    limiterRun (some ⟨c, s⟩) ts = (some ⟨c + ts.length, s⟩, List.replicate ts.length true)
  | [], _, c, _ => by simp [limiterRun]
  | t :: ts, hwin, c, hq => by
    have ht : ¬ s + windowMs ≤ t := by
      have := hwin t (List.mem_cons_self t ts)
      omega
    have hc1 : c + 1 ≤ maxRequests := by
      have hlc := hq
      simp only [List.length_cons] at hlc
      omega
    have hstep : rateLimitStep (some ⟨c, s⟩) t = (⟨c + 1, s⟩, true) := by
      simp [rateLimitStep, ht, hc1]
    have ihr := limiterRun_in_window s ts
      (fun x hx => hwin x (List.mem_cons_of_mem t hx)) (c + 1)
      (by simp only [List.length_cons] at hq; omega)
    have harith : c + 1 + ts.length = c + (ts.length + 1) := by omega
    simp [limiterRun, hstep, ihr, harith, List.replicate_succ]

/-- C3 counterexample: the claim says the rejection body is
`error = "too many requests, try later"`; running the limiter on 16 requests at
one instant does reject the 16th, but the configured fixed body is the string
"Demasiadas peticiones, intentá más tarde.", which differs from the claimed
body. -/
theorem rate_limit_message_mismatch :
    (limiterRun none (List.replicate 16 0)).2.getLast? = some false ∧
    rateLimitResponse ≠ ⟨429, ResponseBody.errorResult "too many requests, try later"⟩ := by
  constructor
  · decide
  · decide

/-- C3 (amended): for a client address issuing 16 requests within one
60-second window, the first 15 are admitted and the 16th is rejected with the
429 response carrying the fixed body `error = "Demasiadas peticiones, intentá
más tarde."`, before any handler logic runs; after the window elapses the
counter resets and the next request from that address is admitted. -/
theorem rate_limit_window_behavior (t0 t16 u : Nat) (rest : List Nat)
    (hlen : rest.length = 14)
    (hwin : ∀ t ∈ rest, t < t0 + windowMs)
    (h16 : t16 < t0 + windowMs)
    (hu : t0 + windowMs ≤ u) :
    (limiterRun none (t0 :: rest)).2 = List.replicate 15 true ∧
    (rateLimitStep (limiterRun none (t0 :: rest)).1 t16).2 = false ∧
    rateLimitResponse = ⟨429, ResponseBody.errorResult limiterMessage⟩ ∧
    (rateLimitStep (some (rateLimitStep (limiterRun none (t0 :: rest)).1 t16).1) u).2
      = true := by
  have step0 : rateLimitStep none t0 = (⟨1, t0⟩, true) := by
    simp [rateLimitStep, maxRequests]
  have hrun := limiterRun_in_window t0 rest hwin 1 (by rw [hlen]; decide)
  have hfull : limiterRun none (t0 :: rest)
      = (some ⟨1 + rest.length, t0⟩, true :: List.replicate rest.length true) := by
    simp [limiterRun, step0, hrun]
  have h16' : ¬ t0 + windowMs ≤ t16 := by omega
  have hstep16 : rateLimitStep (limiterRun none (t0 :: rest)).1 t16 = (⟨16, t0⟩, false) := by
    rw [hfull]
    simp [rateLimitStep, h16', hlen, maxRequests]
  refine ⟨?_, ?_, rfl, ?_⟩
  · rw [hfull, hlen]
    show true :: List.replicate 14 true = List.replicate 15 true
    decide
  · rw [hstep16]
  · rw [hstep16]
    simp [rateLimitStep, hu, maxRequests]

/-- C3 witness: 16 simultaneous requests at time 0 followed by one at the end
of the window. -/
theorem rate_limit_window_behavior_witness :
    ((List.replicate 14 0).length = 14 ∧ (∀ t ∈ List.replicate 14 0, t < 0 + windowMs) ∧
      (0 : Nat) < 0 + windowMs ∧ 0 + windowMs ≤ 60000) ∧
    ((limiterRun none (0 :: List.replicate 14 0)).2 = List.replicate 15 true ∧
     (rateLimitStep (limiterRun none (0 :: List.replicate 14 0)).1 0).2 = false ∧
     rateLimitResponse = ⟨429, ResponseBody.errorResult limiterMessage⟩ ∧
     (rateLimitStep
        (some (rateLimitStep (limiterRun none (0 :: List.replicate 14 0)).1 0).1) 60000).2
       = true) :=
  ⟨⟨by decide, by decide, by decide, by decide⟩,
   rate_limit_window_behavior 0 0 60000 (List.replicate 14 0)
     (by decide) (by decide) (by decide) (by decide)⟩

end AiNoter
